import Mathlib

/-!
Verification of `internal/leafnodes/compound_before_suite_node.go`.

The Go file implements the compound (parallel) BeforeSuite orchestrator:
node 1 runs phase A locally and, when there are several nodes, POSTs the
resulting `RemoteState` to the sync host; every other node polls the sync
host with GET until it observes a terminal state, then both kinds of node
run phase B only when phase A passed.

The embedding below translates the Go code shallowly: I/O effects (the
runner invocations and the HTTP calls) become explicit inputs (runner
behaviours, the list of GET responses) and an explicit event trace output.
-/

namespace Ginkgo

/-- `types.CodeLocation` (only the fields the node touches). -/
structure CodeLocation where
  fileName : String
  lineNumber : Nat
deriving DecidableEq, Repr

/-- `types.SpecState` from `types/types.go` (iota order preserved). -/
inductive SpecState where
  | Invalid
  | Pending
  | Skipped
  | Passed
  | Failed
  | Panicked
  | TimedOut
deriving DecidableEq, Repr

/-- `types.SpecComponentType` (only the values this file needs; `Invalid`
is the Go zero value, `BeforeSuite` is what the constructor passes). -/
inductive SpecComponentType where
  | Invalid
  | BeforeSuite
  | AfterSuite
  | It
deriving DecidableEq, Repr

/-- `types.SpecFailure` (the fields `waitForA`'s failure helper sets). -/
structure SpecFailure where
  Message : String := ""
  Location : CodeLocation := ⟨"", 0⟩
  ComponentType : SpecComponentType := .Invalid
  ComponentIndex : Int := 0
  ComponentCodeLocation : CodeLocation := ⟨"", 0⟩
deriving DecidableEq, Repr

/-- The Go zero value `types.SpecFailure{}` returned on the Passed branch. -/
def emptySpecFailure : SpecFailure := {}

/-- `RemoteStateState`: `Invalid` is `iota` 0, then Pending, Passed,
Failed, Disappeared. -/
inductive RemoteStateState where
  | Invalid
  | Pending
  | Passed
  | Failed
  | Disappeared
deriving DecidableEq, Repr

/-- `RemoteState`: the JSON record exchanged over `/BeforeSuiteState`.
Bytes are modelled as lists of naturals. -/
structure RemoteState where
  Data : List Nat
  State : RemoteStateState
deriving DecidableEq, Repr

/-- The fields of the `runner` collaborator that `waitForA`'s failure
helper reads (`codeLocation`, `nodeType`, `componentIndex`). -/
structure Runner where
  codeLocation : CodeLocation
  nodeType : SpecComponentType
  componentIndex : Int
deriving DecidableEq, Repr

/-- `compoundBeforeSuiteNode`: the orchestrator's mutable state
(`runTime` is wall-clock bookkeeping and is not modelled). -/
structure Node where
  ginkgoNode : Nat
  totalGinkgoNodes : Nat
  syncHost : String
  data : List Nat
  outcome : SpecState
  failure : SpecFailure
  runnerA : Runner
deriving DecidableEq, Repr

/-- The observable I/O a run performs, in program order: runner
invocations and HTTP calls. -/
inductive Event where
  | ranRunnerA
  | post (url : String) (contentType : String) (record : RemoteState)
  | get (url : String)
  | ranRunnerB
deriving DecidableEq, Repr

/-- The outcome of one `http.Get` of `/BeforeSuiteState`, as the code
distinguishes the cases: a transport error (`err != nil`), a non-200
status, an unreadable body, a body that fails `json.Unmarshal`, or a
decoded `RemoteState`. -/
inductive GetResult where
  | netError
  | non200
  | readError
  | decodeError
  | ok (r : RemoteState)
deriving DecidableEq, Repr

/-- A phase-A runner behaviour: from the node's current `data`, the
outcome, failure, and the `data` left behind by the wrapped body
(`wrapA` writes `node.data` when the user body completes). -/
abbrev RunnerARun := List Nat → SpecState × SpecFailure × List Nat

/-- A phase-B runner behaviour: from the node's current `data`, the
outcome and failure (`wrapB` only reads `node.data`). -/
abbrev RunnerBRun := List Nat → SpecState × SpecFailure

/-- `runA`: run runnerA; when `totalGinkgoNodes > 1` POST the
`RemoteState` built from the outcome and the node's (post-run) `data`.
`postOk` stands for the success of `http.Post`, whose return values the
Go code discards. Returns outcome, failure, updated node, event trace. -/
def runA (node : Node) (runnerARun : RunnerARun) (postOk : Bool) :
    SpecState × SpecFailure × Node × List Event :=
  let res := runnerARun node.data
  let outcome := res.1
  let failure := res.2.1
  let node' := { node with data := res.2.2 }
  if node.totalGinkgoNodes > 1 then
    let state := if outcome ≠ SpecState.Passed then RemoteStateState.Failed
                 else RemoteStateState.Passed
    let record : RemoteState := { Data := node'.data, State := state }
    (outcome, failure, node',
      [Event.ranRunnerA,
       Event.post (node.syncHost ++ "/BeforeSuiteState") "application/json" record])
  else
    (outcome, failure, node', [Event.ranRunnerA])

/-- The failure record `waitForA`'s local `failure` helper builds:
attributed to runnerA's code location, component type and index. -/
def failureA (node : Node) (message : String) : SpecFailure :=
  { Message := message
    Location := node.runnerA.codeLocation
    ComponentType := node.runnerA.nodeType
    ComponentIndex := node.runnerA.componentIndex
    ComponentCodeLocation := node.runnerA.codeLocation }

/-- `waitForA`: the follower's poll loop, driven by the successive GET
results. A transport error, unreadable body, or undecodable body ends
the wait at once with the corresponding message; `Passed` adopts the
record's data; `Failed` and `Disappeared` fail with their messages; any
other decoded state falls through the `switch` and polls again after the
sleep. `none` means the loop has not terminated on the given responses
(the Go loop blocks forever waiting for more). One `get` event is
emitted per iteration. -/
def waitForA (node : Node) :
    List GetResult → Option (SpecState × SpecFailure × Node) × List Event
  | [] => (none, [])
  | resp :: rest =>
    let g := Event.get (node.syncHost ++ "/BeforeSuiteState")
    match resp with
    | .netError =>
        (some (SpecState.Failed, failureA node "Failed to fetch BeforeSuite state", node), [g])
    | .non200 =>
        (some (SpecState.Failed, failureA node "Failed to fetch BeforeSuite state", node), [g])
    | .readError =>
        (some (SpecState.Failed, failureA node "Failed to read BeforeSuite state", node), [g])
    | .decodeError =>
        (some (SpecState.Failed, failureA node "Failed to decode BeforeSuite state", node), [g])
    | .ok r =>
      match r.State with
      | .Passed =>
          (some (SpecState.Passed, emptySpecFailure, { node with data := r.Data }), [g])
      | .Failed =>
          (some (SpecState.Failed, failureA node "BeforeSuite on Node 1 failed", node), [g])
      | .Disappeared =>
          (some (SpecState.Failed,
                 failureA node "Node 1 dissappeared before completing BeforeSuite", node), [g])
      | _ =>
          let rec' := waitForA node rest
          (rec'.1, g :: rec'.2)

/-- The branch at the top of `Run`: node 1 runs phase A locally, every
other node waits on the remote state. `none` when a follower's poll loop
never terminates. -/
def phaseA (node : Node) (runnerARun : RunnerARun) (postOk : Bool)
    (responses : List GetResult) :
    Option (SpecState × SpecFailure × Node × List Event) :=
  if node.ginkgoNode = 1 then
    let r := runA node runnerARun postOk
    some (r.1, r.2.1, r.2.2.1, r.2.2.2)
  else
    match waitForA node responses with
    | (some (o, f, n'), evs) => some (o, f, n', evs)
    | (none, _) => none

/-- `Run`: record phase A's outcome and failure; if it is not `Passed`
return `false`; otherwise run runnerB, record its outcome and failure,
and return whether it passed. `none` when the follower poll loop never
terminates (the Go `Run` never returns then). -/
def Run (node : Node) (runnerARun : RunnerARun) (postOk : Bool)
    (responses : List GetResult) (runnerBRun : RunnerBRun) :
    Option (Bool × Node × List Event) :=
  match phaseA node runnerARun postOk responses with
  | none => none
  | some (o, f, n', evs) =>
    let node' := { n' with outcome := o, failure := f }
    if o ≠ SpecState.Passed then
      some (false, node', evs)
    else
      let resB := runnerBRun node'.data
      some (resB.1 = SpecState.Passed,
            { node' with outcome := resB.1, failure := resB.2 },
            evs ++ [Event.ranRunnerB])

/-- `Passed()`: whether the recorded outcome is `Passed`. -/
def NodePassed (node : Node) : Bool := node.outcome = SpecState.Passed

/-- The closure `wrapA` returns, at the moment the user body has
completed with bytes `out`: it stores `out` into `node.data`. -/
def wrapAExec (out : List Nat) (node : Node) : Node := { node with data := out }

/-- The argument the closure `wrapB` returns passes to the user body:
exactly the current value of `node.data`. -/
def wrapBArg (node : Node) : List Nat := node.data

/-- The fragment of Go's `reflect.Type` that `wrapA`/`wrapB` inspect:
function types with their in/out lists, channels and slices with their
element type, the empty interface, `uint8`, and everything else. -/
inductive GoType where
  | func (ins : List GoType) (outs : List GoType)
  | chan (elem : GoType)
  | slice (elem : GoType)
  | interfaceT
  | uint8
  | other

/-- `reflect.Kind`, restricted to the kinds the checks compare against. -/
inductive GoKind where
  | funcK
  | chanK
  | sliceK
  | interfaceK
  | uint8K
  | otherK
deriving DecidableEq, Repr

/-- `Type.Kind()`. -/
def GoType.kind : GoType → GoKind
  | .func _ _ => .funcK
  | .chan _ => .chanK
  | .slice _ => .sliceK
  | .interfaceT => .interfaceK
  | .uint8 => .uint8K
  | .other => .otherK

/-- `Type.Elem()`; only called on channels and slices in the source. -/
def GoType.elem : GoType → GoType
  | .chan e => e
  | .slice e => e
  | _ => .other

/-- `Type.NumIn()`. -/
def GoType.numIn : GoType → Nat
  | .func ins _ => ins.length
  | _ => 0

/-- `Type.NumOut()`. -/
def GoType.numOut : GoType → Nat
  | .func _ outs => outs.length
  | _ => 0

/-- `Type.In(i)`; only called with `i < NumIn()` in the source. -/
def GoType.inAt : GoType → Nat → GoType
  | .func ins _, i => ins.getD i .other
  | _, _ => .other

/-- `Type.Out(i)`; only called with `i < NumOut()` in the source. -/
def GoType.outAt : GoType → Nat → GoType
  | .func _ outs, i => outs.getD i .other
  | _, _ => .other

/-- `wrapA`'s shape validation; the Go `panic` calls become `.error`
with the panic message. -/
def wrapA (typeA : GoType) : Except String Unit :=
  if typeA.kind ≠ GoKind.funcK then
    .error "CompoundBeforeSuite expects a function as its first argument"
  else
    let takesNothing := typeA.numIn = 0
    let takesADoneChannel := typeA.numIn = 1 ∧ (typeA.inAt 0).kind = GoKind.chanK ∧
      (typeA.inAt 0).elem.kind = GoKind.interfaceK
    let returnsBytes := typeA.numOut = 1 ∧ (typeA.outAt 0).kind = GoKind.sliceK ∧
      (typeA.outAt 0).elem.kind = GoKind.uint8K
    if ¬ ((takesNothing ∨ takesADoneChannel) ∧ returnsBytes) then
      .error "CompoundBeforeSuite's first argument should be a function that returns []byte and either takes no arguments or takes a Done channel."
    else
      .ok ()

/-- `wrapB`'s shape validation; the Go `panic` calls become `.error`
with the panic message. -/
def wrapB (typeB : GoType) : Except String Unit :=
  if typeB.kind ≠ GoKind.funcK then
    .error "CompoundBeforeSuite expects a function as its second argument"
  else
    let returnsNothing := typeB.numOut = 0
    let takesBytesOnly := typeB.numIn = 1 ∧ (typeB.inAt 0).kind = GoKind.sliceK ∧
      (typeB.inAt 0).elem.kind = GoKind.uint8K
    let takesBytesAndDone := typeB.numIn = 2 ∧
      (typeB.inAt 0).kind = GoKind.sliceK ∧ (typeB.inAt 0).elem.kind = GoKind.uint8K ∧
      (typeB.inAt 1).kind = GoKind.chanK ∧ (typeB.inAt 1).elem.kind = GoKind.interfaceK
    if ¬ ((takesBytesOnly ∨ takesBytesAndDone) ∧ returnsNothing) then
      .error "CompoundBeforeSuite's second argument should be a function that returns nothing and either takes []byte or ([]byte, Done)"
    else
      .ok ()

/-- `NewCompoundBeforeSuiteNode`: `wrapA` is evaluated first (building
runnerA), then `wrapB`; a panic in either aborts construction. On
success the node starts with zero-valued `data`, `outcome`, `failure`,
and both runners carry the given code location, component type
`BeforeSuite`, and component index 0. -/
def NewCompoundBeforeSuiteNode (typeA typeB : GoType)
    (codeLocation : CodeLocation) (ginkgoNode totalGinkgoNodes : Nat)
    (syncHost : String) : Except String Node := do
  wrapA typeA
  wrapB typeB
  pure { ginkgoNode := ginkgoNode
         totalGinkgoNodes := totalGinkgoNodes
         syncHost := syncHost
         data := []
         outcome := .Invalid
         failure := emptySpecFailure
         runnerA := { codeLocation := codeLocation
                      nodeType := .BeforeSuite
                      componentIndex := 0 } }

/-- The producer shapes named by the spec: `() -> []byte` or
`(Done) -> []byte`, where `Done` is a channel of empty interface. -/
def specValidShapeA : GoType → Bool
  | .func [] [.slice .uint8] => true
  | .func [.chan .interfaceT] [.slice .uint8] => true
  | _ => false

/-- The consumer shapes named by the spec: `([]byte) -> ()` or
`([]byte, Done) -> ()`. -/
def specValidShapeB : GoType → Bool
  | .func [.slice .uint8] [] => true
  | .func [.slice .uint8, .chan .interfaceT] [] => true
  | _ => false

/-! ### Concrete instances used to exercise the definitions -/

/-- A concrete producer node (2 nodes total). -/
def wNode : Node :=
  { ginkgoNode := 1
    totalGinkgoNodes := 2
    syncHost := "http://127.0.0.1:8080"
    data := []
    outcome := .Invalid
    failure := emptySpecFailure
    runnerA := { codeLocation := ⟨"suite_test.go", 42⟩
                 nodeType := .BeforeSuite
                 componentIndex := 0 } }

/-- A concrete follower node (ordinal 2 of 2). -/
def wNodeF : Node := { wNode with ginkgoNode := 2 }

/-- A phase-A behaviour that fails without touching the data slot. -/
def wRunAFail : RunnerARun := fun d => (SpecState.Failed, { Message := "boom" }, d)

/-- A phase-A behaviour that passes and writes bytes `[7, 7]`. -/
def wRunAPass : RunnerARun := fun _ => (SpecState.Passed, emptySpecFailure, [7, 7])

/-- A phase-B behaviour that passes. -/
def wRunBPass : RunnerBRun := fun _ => (SpecState.Passed, emptySpecFailure)

/-! ### Helper lemmas -/

/-- Every event the poll loop emits is a GET of the state endpoint. -/
theorem waitForA_events_get (node : Node) :
    ∀ (responses : List GetResult) (e : Event),
      e ∈ (waitForA node responses).2 →
      e = Event.get (node.syncHost ++ "/BeforeSuiteState") := by
  intro responses
  induction responses with
  | nil => intro e he; simp [waitForA] at he
  | cons resp rest ih =>
    intro e he
    cases resp with
    | netError => simpa [waitForA] using he
    | non200 => simpa [waitForA] using he
    | readError => simpa [waitForA] using he
    | decodeError => simpa [waitForA] using he
    | ok r =>
      rcases r with ⟨d, s⟩
      cases s with
      | Passed => simpa [waitForA] using he
      | Failed => simpa [waitForA] using he
      | Disappeared => simpa [waitForA] using he
      | Pending =>
        simp [waitForA] at he
        rcases he with he | he
        · exact he
        · exact ih e he
      | Invalid =>
        simp [waitForA] at he
        rcases he with he | he
        · exact he
        · exact ih e he

/-- The producer path emits exactly a runnerA invocation, followed by
one POST when there are several nodes. -/
theorem runA_events (node : Node) (rA : RunnerARun) (postOk : Bool) :
    (runA node rA postOk).2.2.2 = [Event.ranRunnerA] ∨
    ∃ u ct r, (runA node rA postOk).2.2.2 = [Event.ranRunnerA, Event.post u ct r] := by
  unfold runA
  by_cases h : node.totalGinkgoNodes > 1
  · right
    simp only [h, if_pos]
    exact ⟨_, _, _, rfl⟩
  · left
    simp only [h, if_neg, if_false]

/-- Phase A never invokes runnerB. -/
theorem phaseA_no_ranRunnerB (node : Node) (rA : RunnerARun) (postOk : Bool)
    (responses : List GetResult) (o : SpecState) (f : SpecFailure) (n' : Node)
    (evs : List Event)
    (h : phaseA node rA postOk responses = some (o, f, n', evs)) :
    Event.ranRunnerB ∉ evs := by
  unfold phaseA at h
  split at h
  · have h' : (runA node rA postOk).2.2.2 = evs := by
      injection h with h'
      simpa using congrArg (fun t => t.2.2.2) h'
    rcases runA_events node rA postOk with h1 | ⟨u, ct, r, h1⟩ <;>
      rw [← h', h1] <;> simp
  · split at h
    next o' f' n'' evs' heq =>
      injection h with h'
      simp only [Prod.mk.injEq] at h'
      obtain ⟨-, -, -, h4⟩ := h'
      subst h4
      intro hmem
      have hget : Event.ranRunnerB ∈ (waitForA node responses).2 := by
        rw [heq]; exact hmem
      exact Event.noConfusion (waitForA_events_get node responses _ hget)
    next => exact absurd h (by simp)

/-- `ranRunnerA` is always in the producer path's trace. -/
theorem runA_ranRunnerA_mem (node : Node) (rA : RunnerARun) (postOk : Bool) :
    Event.ranRunnerA ∈ (runA node rA postOk).2.2.2 := by
  rcases runA_events node rA postOk with h | ⟨u, ct, r, h⟩ <;> rw [h] <;> simp

/-- The producer path never performs a GET. -/
theorem runA_no_get (node : Node) (rA : RunnerARun) (postOk : Bool) :
    ∀ u, Event.get u ∉ (runA node rA postOk).2.2.2 := by
  intro u
  rcases runA_events node rA postOk with h | ⟨u', ct, r, h⟩ <;> rw [h] <;> simp

/-- On the producer, phase A's trace is `runA`'s trace. -/
theorem phaseA_events_producer (node : Node) (rA : RunnerARun) (postOk : Bool)
    (responses : List GetResult) (o : SpecState) (f : SpecFailure) (n' : Node)
    (evs : List Event) (h1 : node.ginkgoNode = 1)
    (h : phaseA node rA postOk responses = some (o, f, n', evs)) :
    evs = (runA node rA postOk).2.2.2 := by
  unfold phaseA at h
  rw [if_pos h1] at h
  injection h with h'
  simpa using (congrArg (fun t => t.2.2.2) h').symm

/-- On a follower, phase A's trace is the poll loop's trace. -/
theorem phaseA_events_follower (node : Node) (rA : RunnerARun) (postOk : Bool)
    (responses : List GetResult) (o : SpecState) (f : SpecFailure) (n' : Node)
    (evs : List Event) (h1 : node.ginkgoNode ≠ 1)
    (h : phaseA node rA postOk responses = some (o, f, n', evs)) :
    evs = (waitForA node responses).2 := by
  unfold phaseA at h
  rw [if_neg h1] at h
  split at h
  next o' f' n'' evs' heq =>
    injection h with h'
    simp only [Prod.mk.injEq] at h'
    rw [heq]
    exact h'.2.2.2.symm
  next => exact absurd h (by simp)

/-- `Run`'s trace is phase A's trace, with `ranRunnerB` appended exactly
when phase A passed. -/
theorem Run_events (node : Node) (rA : RunnerARun) (postOk : Bool)
    (responses : List GetResult) (rB : RunnerBRun) (b : Bool) (n' : Node)
    (evs : List Event)
    (h : Run node rA postOk responses rB = some (b, n', evs)) :
    ∃ o f nA evsA, phaseA node rA postOk responses = some (o, f, nA, evsA) ∧
      (evs = evsA ∨ evs = evsA ++ [Event.ranRunnerB]) := by
  cases hP : phaseA node rA postOk responses with
  | none => rw [Run, hP] at h; exact absurd h (by simp)
  | some t =>
    obtain ⟨o, f, nA, evsA⟩ := t
    rw [Run, hP] at h
    dsimp only at h
    refine ⟨o, f, nA, evsA, rfl, ?_⟩
    by_cases ho : o = SpecState.Passed
    · right
      rw [if_neg (by simp [ho])] at h
      injection h with h'
      simp only [Prod.mk.injEq] at h'
      exact h'.2.2.symm
    · left
      rw [if_pos ho] at h
      injection h with h'
      simp only [Prod.mk.injEq] at h'
      exact h'.2.2.symm

/-! ### The claims -/

/-- C1: if phase A's outcome (local run on the producer, or remote wait
on a follower) is not `Passed`, `Run` never invokes runnerB, returns
`false`, and the node's final outcome and failure are phase A's. -/
theorem run_short_circuits_on_phaseA_failure
    (node : Node) (rA : RunnerARun) (postOk : Bool) (responses : List GetResult)
    (rB : RunnerBRun) (o : SpecState) (f : SpecFailure) (n' : Node)
    (evs : List Event)
    (hA : phaseA node rA postOk responses = some (o, f, n', evs))
    (hno : o ≠ SpecState.Passed) :
    Run node rA postOk responses rB =
      some (false, { n' with outcome := o, failure := f }, evs) ∧
    Event.ranRunnerB ∉ evs := by
  refine ⟨?_, phaseA_no_ranRunnerB node rA postOk responses o f n' evs hA⟩
  rw [Run, hA]
  simp [hno]

/-- Witness for C1: a producer whose phase A fails. -/
theorem run_short_circuits_on_phaseA_failure_witness :
    Run wNode wRunAFail true [] wRunBPass =
      some (false,
        { wNode with outcome := SpecState.Failed, failure := { Message := "boom" } },
        [Event.ranRunnerA,
         Event.post "http://127.0.0.1:8080/BeforeSuiteState" "application/json"
           { Data := [], State := RemoteStateState.Failed }]) ∧
    Event.ranRunnerB ∉
      [Event.ranRunnerA,
       Event.post "http://127.0.0.1:8080/BeforeSuiteState" "application/json"
         { Data := [], State := RemoteStateState.Failed }] :=
  run_short_circuits_on_phaseA_failure wNode wRunAFail true [] wRunBPass
    SpecState.Failed { Message := "boom" } wNode
    [Event.ranRunnerA,
     Event.post "http://127.0.0.1:8080/BeforeSuiteState" "application/json"
       { Data := [], State := RemoteStateState.Failed }]
    (by rfl) (by decide)

/-- C2: ordinal 1 executes runnerA and is the only ordinal whose trace
can contain a POST; any other ordinal never executes runnerA and never
POSTs (its HTTP traffic is GETs only). -/
theorem producer_follower_roles
    (node : Node) (rA : RunnerARun) (postOk : Bool) (responses : List GetResult)
    (rB : RunnerBRun) (b : Bool) (n' : Node) (evs : List Event)
    (h : Run node rA postOk responses rB = some (b, n', evs)) :
    (node.ginkgoNode = 1 →
      Event.ranRunnerA ∈ evs ∧ ∀ u, Event.get u ∉ evs) ∧
    (node.ginkgoNode ≠ 1 →
      Event.ranRunnerA ∉ evs ∧ ∀ u ct r, Event.post u ct r ∉ evs) := by
  obtain ⟨o, f, nA, evsA, hP, hevs⟩ :=
    Run_events node rA postOk responses rB b n' evs h
  constructor
  · intro h1
    have hA := phaseA_events_producer node rA postOk responses o f nA evsA h1 hP
    constructor
    · have hm := runA_ranRunnerA_mem node rA postOk
      rcases hevs with rfl | rfl
      · rw [hA]; exact hm
      · rw [hA]; exact List.mem_append_left _ hm
    · intro u hu
      have hng := runA_no_get node rA postOk u
      rcases hevs with rfl | rfl
      · exact hng (hA ▸ hu)
      · rcases List.mem_append.mp hu with hu | hu
        · exact hng (hA ▸ hu)
        · simp at hu
  · intro h1
    have hA := phaseA_events_follower node rA postOk responses o f nA evsA h1 hP
    constructor
    · intro hm
      rcases hevs with rfl | rfl
      · exact Event.noConfusion (waitForA_events_get node responses _ (hA ▸ hm))
      · rcases List.mem_append.mp hm with hm | hm
        · exact Event.noConfusion (waitForA_events_get node responses _ (hA ▸ hm))
        · simp at hm
    · intro u ct r hm
      rcases hevs with rfl | rfl
      · exact Event.noConfusion (waitForA_events_get node responses _ (hA ▸ hm))
      · rcases List.mem_append.mp hm with hm | hm
        · exact Event.noConfusion (waitForA_events_get node responses _ (hA ▸ hm))
        · simp at hm

/-- Witness for C2: a passing producer run of `wNode`. -/
theorem producer_follower_roles_witness :
    (Run wNode wRunAPass true [] wRunBPass =
      some (true,
        { wNode with data := [7, 7], outcome := SpecState.Passed,
                     failure := emptySpecFailure },
        [Event.ranRunnerA,
         Event.post "http://127.0.0.1:8080/BeforeSuiteState" "application/json"
           { Data := [7, 7], State := RemoteStateState.Passed },
         Event.ranRunnerB])) ∧
    ((wNode.ginkgoNode = 1 →
        Event.ranRunnerA ∈
          [Event.ranRunnerA,
           Event.post "http://127.0.0.1:8080/BeforeSuiteState" "application/json"
             { Data := [7, 7], State := RemoteStateState.Passed },
           Event.ranRunnerB] ∧
        ∀ u, Event.get u ∉
          [Event.ranRunnerA,
           Event.post "http://127.0.0.1:8080/BeforeSuiteState" "application/json"
             { Data := [7, 7], State := RemoteStateState.Passed },
           Event.ranRunnerB]) ∧
     (wNode.ginkgoNode ≠ 1 →
        Event.ranRunnerA ∉
          [Event.ranRunnerA,
           Event.post "http://127.0.0.1:8080/BeforeSuiteState" "application/json"
             { Data := [7, 7], State := RemoteStateState.Passed },
           Event.ranRunnerB] ∧
        ∀ u ct r, Event.post u ct r ∉
          [Event.ranRunnerA,
           Event.post "http://127.0.0.1:8080/BeforeSuiteState" "application/json"
             { Data := [7, 7], State := RemoteStateState.Passed },
           Event.ranRunnerB])) :=
  ⟨by rfl,
   producer_follower_roles wNode wRunAPass true [] wRunBPass true
     { wNode with data := [7, 7], outcome := SpecState.Passed,
                  failure := emptySpecFailure }
     [Event.ranRunnerA,
      Event.post "http://127.0.0.1:8080/BeforeSuiteState" "application/json"
        { Data := [7, 7], State := RemoteStateState.Passed },
      Event.ranRunnerB]
     (by rfl)⟩

/-- C3: with one node (and hence ordinal 1), `Run` performs no POST and
no GET; phase A runs locally and runnerB runs exactly when phase A
passed. -/
theorem single_node_no_network
    (node : Node) (rA : RunnerARun) (postOk : Bool) (responses : List GetResult)
    (rB : RunnerBRun) (h1 : node.ginkgoNode = 1)
    (htot : node.totalGinkgoNodes = 1) :
    ∃ b n' evs, Run node rA postOk responses rB = some (b, n', evs) ∧
      (∀ u ct r, Event.post u ct r ∉ evs) ∧
      (∀ u, Event.get u ∉ evs) ∧
      Event.ranRunnerA ∈ evs ∧
      (Event.ranRunnerB ∈ evs ↔ (rA node.data).1 = SpecState.Passed) := by
  have hrA : runA node rA postOk =
      ((rA node.data).1, (rA node.data).2.1,
       { node with data := (rA node.data).2.2 }, [Event.ranRunnerA]) := by
    unfold runA
    rw [if_neg (by simp [htot])]
  by_cases hp : (rA node.data).1 = SpecState.Passed
  · refine ⟨decide ((rB (rA node.data).2.2).1 = SpecState.Passed),
      { node with data := (rA node.data).2.2,
                  outcome := (rB (rA node.data).2.2).1,
                  failure := (rB (rA node.data).2.2).2 },
      [Event.ranRunnerA, Event.ranRunnerB], ?_, by simp, by simp, by simp,
      by simp [hp]⟩
    rw [Run]
    unfold phaseA
    rw [if_pos h1, hrA]
    dsimp only
    rw [if_neg (by simp [hp])]
    rfl
  · refine ⟨false,
      { node with data := (rA node.data).2.2,
                  outcome := (rA node.data).1,
                  failure := (rA node.data).2.1 },
      [Event.ranRunnerA], ?_, by simp, by simp, by simp, by simp [hp]⟩
    rw [Run]
    unfold phaseA
    rw [if_pos h1, hrA]
    dsimp only
    rw [if_pos hp]

/-- Witness for C3: a single-node suite with a passing phase A. -/
theorem single_node_no_network_witness :
    ∃ b n' evs,
      Run { wNode with totalGinkgoNodes := 1 } wRunAPass true [] wRunBPass =
        some (b, n', evs) ∧
      (∀ u ct r, Event.post u ct r ∉ evs) ∧
      (∀ u, Event.get u ∉ evs) ∧
      Event.ranRunnerA ∈ evs ∧
      (Event.ranRunnerB ∈ evs ↔
        (wRunAPass { wNode with totalGinkgoNodes := 1 }.data).1 =
          SpecState.Passed) :=
  single_node_no_network { wNode with totalGinkgoNodes := 1 } wRunAPass true []
    wRunBPass (by rfl) (by rfl)

/-- On a follower whose wait fails at once, `Run` records the wait's
failure, skips runnerB, and returns `false`. -/
theorem Run_follower_failed_first (node : Node) (rA : RunnerARun) (postOk : Bool)
    (rB : RunnerBRun) (responses : List GetResult) (msg : String)
    (hne : node.ginkgoNode ≠ 1)
    (hw : waitForA node responses =
      (some (SpecState.Failed, failureA node msg, node),
       [Event.get (node.syncHost ++ "/BeforeSuiteState")])) :
    Run node rA postOk responses rB =
      some (false,
        { node with outcome := SpecState.Failed, failure := failureA node msg },
        [Event.get (node.syncHost ++ "/BeforeSuiteState")]) := by
  rw [Run]
  unfold phaseA
  rw [if_neg hne, hw]
  dsimp only
  rw [if_pos (by simp)]

/-- C4: with several nodes, the producer path runs runnerA and then
performs exactly one POST, whose record's state is `Passed` exactly when
phase A passed (`Failed` otherwise) and whose data is the payload slot
as left by phase A; the returned outcome and failure are runnerA's, and
nothing depends on whether the POST succeeded. -/
theorem producer_publishes_once_after_runA
    (node : Node) (rA : RunnerARun) (postOk : Bool)
    (htot : 1 < node.totalGinkgoNodes) :
    runA node rA postOk =
      ((rA node.data).1, (rA node.data).2.1,
       { node with data := (rA node.data).2.2 },
       [Event.ranRunnerA,
        Event.post (node.syncHost ++ "/BeforeSuiteState") "application/json"
          { Data := (rA node.data).2.2,
            State := if (rA node.data).1 = SpecState.Passed then
                       RemoteStateState.Passed
                     else RemoteStateState.Failed }]) ∧
    runA node rA true = runA node rA false := by
  refine ⟨?_, rfl⟩
  unfold runA
  rw [if_pos htot]
  dsimp only
  by_cases hp : (rA node.data).1 = SpecState.Passed
  · rw [if_neg (by simp [hp]), if_pos hp]
  · rw [if_pos hp, if_neg hp]

/-- Witness for C4: the passing producer behaviour on the 2-node
`wNode`. -/
theorem producer_publishes_once_after_runA_witness :
    (runA wNode wRunAPass true =
      (SpecState.Passed, emptySpecFailure, { wNode with data := [7, 7] },
       [Event.ranRunnerA,
        Event.post "http://127.0.0.1:8080/BeforeSuiteState" "application/json"
          { Data := [7, 7], State := RemoteStateState.Passed }])) ∧
    runA wNode wRunAPass true = runA wNode wRunAPass false := by
  have h := producer_publishes_once_after_runA wNode wRunAPass true (by decide)
  exact ⟨by rw [h.1]; rfl, h.2⟩

/-- C5: a single GET attempt that hits a network error or a non-200
status ends the wait at once with "Failed to fetch BeforeSuite state";
an unreadable body ends it with "Failed to read BeforeSuite state"; an
undecodable body with "Failed to decode BeforeSuite state"; each failure
is attributed to runnerA's component and location, and runnerB never
runs. -/
theorem follower_transport_error_fails_wait
    (node : Node) (rest : List GetResult) (rA : RunnerARun) (postOk : Bool)
    (rB : RunnerBRun) (hne : node.ginkgoNode ≠ 1) :
    (waitForA node (GetResult.netError :: rest) =
       (some (SpecState.Failed,
              failureA node "Failed to fetch BeforeSuite state", node),
        [Event.get (node.syncHost ++ "/BeforeSuiteState")])) ∧
    (waitForA node (GetResult.non200 :: rest) =
       (some (SpecState.Failed,
              failureA node "Failed to fetch BeforeSuite state", node),
        [Event.get (node.syncHost ++ "/BeforeSuiteState")])) ∧
    (waitForA node (GetResult.readError :: rest) =
       (some (SpecState.Failed,
              failureA node "Failed to read BeforeSuite state", node),
        [Event.get (node.syncHost ++ "/BeforeSuiteState")])) ∧
    (waitForA node (GetResult.decodeError :: rest) =
       (some (SpecState.Failed,
              failureA node "Failed to decode BeforeSuite state", node),
        [Event.get (node.syncHost ++ "/BeforeSuiteState")])) ∧
    (∀ msg, (failureA node msg).Message = msg ∧
      (failureA node msg).Location = node.runnerA.codeLocation ∧
      (failureA node msg).ComponentType = node.runnerA.nodeType ∧
      (failureA node msg).ComponentIndex = node.runnerA.componentIndex ∧
      (failureA node msg).ComponentCodeLocation = node.runnerA.codeLocation) ∧
    (Run node rA postOk (GetResult.netError :: rest) rB =
       some (false,
         { node with outcome := SpecState.Failed,
                     failure := failureA node "Failed to fetch BeforeSuite state" },
         [Event.get (node.syncHost ++ "/BeforeSuiteState")])) ∧
    (Run node rA postOk (GetResult.non200 :: rest) rB =
       some (false,
         { node with outcome := SpecState.Failed,
                     failure := failureA node "Failed to fetch BeforeSuite state" },
         [Event.get (node.syncHost ++ "/BeforeSuiteState")])) ∧
    (Run node rA postOk (GetResult.readError :: rest) rB =
       some (false,
         { node with outcome := SpecState.Failed,
                     failure := failureA node "Failed to read BeforeSuite state" },
         [Event.get (node.syncHost ++ "/BeforeSuiteState")])) ∧
    (Run node rA postOk (GetResult.decodeError :: rest) rB =
       some (false,
         { node with outcome := SpecState.Failed,
                     failure := failureA node "Failed to decode BeforeSuite state" },
         [Event.get (node.syncHost ++ "/BeforeSuiteState")])) ∧
    Event.ranRunnerB ∉ [Event.get (node.syncHost ++ "/BeforeSuiteState")] := by
  have h1 : waitForA node (GetResult.netError :: rest) =
      (some (SpecState.Failed,
             failureA node "Failed to fetch BeforeSuite state", node),
       [Event.get (node.syncHost ++ "/BeforeSuiteState")]) := by
    simp [waitForA]
  have h2 : waitForA node (GetResult.non200 :: rest) =
      (some (SpecState.Failed,
             failureA node "Failed to fetch BeforeSuite state", node),
       [Event.get (node.syncHost ++ "/BeforeSuiteState")]) := by
    simp [waitForA]
  have h3 : waitForA node (GetResult.readError :: rest) =
      (some (SpecState.Failed,
             failureA node "Failed to read BeforeSuite state", node),
       [Event.get (node.syncHost ++ "/BeforeSuiteState")]) := by
    simp [waitForA]
  have h4 : waitForA node (GetResult.decodeError :: rest) =
      (some (SpecState.Failed,
             failureA node "Failed to decode BeforeSuite state", node),
       [Event.get (node.syncHost ++ "/BeforeSuiteState")]) := by
    simp [waitForA]
  refine ⟨h1, h2, h3, h4, fun msg => ⟨rfl, rfl, rfl, rfl, rfl⟩,
    Run_follower_failed_first node rA postOk rB _ _ hne h1,
    Run_follower_failed_first node rA postOk rB _ _ hne h2,
    Run_follower_failed_first node rA postOk rB _ _ hne h3,
    Run_follower_failed_first node rA postOk rB _ _ hne h4,
    by simp⟩

/-- Witness for C5: the concrete follower `wNodeF` with an unreachable
endpoint. -/
theorem follower_transport_error_fails_wait_witness :
    (waitForA wNodeF [GetResult.netError] =
       (some (SpecState.Failed,
              failureA wNodeF "Failed to fetch BeforeSuite state", wNodeF),
        [Event.get "http://127.0.0.1:8080/BeforeSuiteState"])) ∧
    (Run wNodeF wRunAPass true [GetResult.netError] wRunBPass =
       some (false,
         { wNodeF with outcome := SpecState.Failed,
                       failure := failureA wNodeF "Failed to fetch BeforeSuite state" },
         [Event.get "http://127.0.0.1:8080/BeforeSuiteState"])) := by
  have h := follower_transport_error_fails_wait wNodeF [] wRunAPass true wRunBPass
    (by decide)
  exact ⟨h.1, h.2.2.2.2.2.1⟩

/-- C6: a record with state `Failed` ends the wait with exactly
"BeforeSuite on Node 1 failed"; a record with state `Disappeared` ends
it with a distinct message attributing the failure to node 1's
disappearance; in both cases `Run` returns `false` and runnerB never
runs. -/
theorem follower_remote_failure
    (node : Node) (d d' : List Nat) (rest : List GetResult) (rA : RunnerARun)
    (postOk : Bool) (rB : RunnerBRun) (hne : node.ginkgoNode ≠ 1) :
    (waitForA node (GetResult.ok { Data := d, State := RemoteStateState.Failed } :: rest) =
       (some (SpecState.Failed,
              failureA node "BeforeSuite on Node 1 failed", node),
        [Event.get (node.syncHost ++ "/BeforeSuiteState")])) ∧
    (waitForA node (GetResult.ok { Data := d', State := RemoteStateState.Disappeared } :: rest) =
       (some (SpecState.Failed,
              failureA node "Node 1 dissappeared before completing BeforeSuite", node),
        [Event.get (node.syncHost ++ "/BeforeSuiteState")])) ∧
    ("BeforeSuite on Node 1 failed" ≠
       "Node 1 dissappeared before completing BeforeSuite") ∧
    (Run node rA postOk
        (GetResult.ok { Data := d, State := RemoteStateState.Failed } :: rest) rB =
       some (false,
         { node with outcome := SpecState.Failed,
                     failure := failureA node "BeforeSuite on Node 1 failed" },
         [Event.get (node.syncHost ++ "/BeforeSuiteState")])) ∧
    (Run node rA postOk
        (GetResult.ok { Data := d', State := RemoteStateState.Disappeared } :: rest) rB =
       some (false,
         { node with outcome := SpecState.Failed,
                     failure := failureA node
                       "Node 1 dissappeared before completing BeforeSuite" },
         [Event.get (node.syncHost ++ "/BeforeSuiteState")])) ∧
    Event.ranRunnerB ∉ [Event.get (node.syncHost ++ "/BeforeSuiteState")] := by
  have h1 : waitForA node
      (GetResult.ok { Data := d, State := RemoteStateState.Failed } :: rest) =
      (some (SpecState.Failed,
             failureA node "BeforeSuite on Node 1 failed", node),
       [Event.get (node.syncHost ++ "/BeforeSuiteState")]) := by
    simp [waitForA]
  have h2 : waitForA node
      (GetResult.ok { Data := d', State := RemoteStateState.Disappeared } :: rest) =
      (some (SpecState.Failed,
             failureA node "Node 1 dissappeared before completing BeforeSuite", node),
       [Event.get (node.syncHost ++ "/BeforeSuiteState")]) := by
    simp [waitForA]
  exact ⟨h1, h2, by decide,
    Run_follower_failed_first node rA postOk rB _ _ hne h1,
    Run_follower_failed_first node rA postOk rB _ _ hne h2,
    by simp⟩

/-- Witness for C6: the concrete follower `wNodeF` observing a failed
producer record. -/
theorem follower_remote_failure_witness :
    (waitForA wNodeF [GetResult.ok { Data := [], State := RemoteStateState.Failed }] =
       (some (SpecState.Failed,
              failureA wNodeF "BeforeSuite on Node 1 failed", wNodeF),
        [Event.get "http://127.0.0.1:8080/BeforeSuiteState"])) ∧
    (Run wNodeF wRunAPass true
        [GetResult.ok { Data := [], State := RemoteStateState.Failed }] wRunBPass =
       some (false,
         { wNodeF with outcome := SpecState.Failed,
                       failure := failureA wNodeF "BeforeSuite on Node 1 failed" },
         [Event.get "http://127.0.0.1:8080/BeforeSuiteState"])) := by
  have h := follower_remote_failure wNodeF [] [] [] wRunAPass true wRunBPass
    (by decide)
  exact ⟨h.1, h.2.2.2.1⟩

/-- C7: a follower that observes a `Passed` record with data `P` stores
`P` into the payload slot, returns `Passed` with the zero-valued
failure, and the phase-B wrapper hands the consumer exactly that slot
(so runnerB is applied to `P`); on the producer, the phase-A wrapper
stores the body's returned bytes into the same slot the phase-B wrapper
reads. -/
theorem payload_propagation
    (node : Node) (P : List Nat) (rest : List GetResult) (rA : RunnerARun)
    (postOk : Bool) (rB : RunnerBRun) (hne : node.ginkgoNode ≠ 1) :
    (waitForA node (GetResult.ok { Data := P, State := RemoteStateState.Passed } :: rest) =
       (some (SpecState.Passed, emptySpecFailure, { node with data := P }),
        [Event.get (node.syncHost ++ "/BeforeSuiteState")])) ∧
    wrapBArg { node with data := P } = P ∧
    (∀ (b : List Nat) (n : Node), wrapBArg (wrapAExec b n) = b) ∧
    (Run node rA postOk
        (GetResult.ok { Data := P, State := RemoteStateState.Passed } :: rest) rB =
       some (decide ((rB P).1 = SpecState.Passed),
         { node with data := P, outcome := (rB P).1, failure := (rB P).2 },
         [Event.get (node.syncHost ++ "/BeforeSuiteState"), Event.ranRunnerB])) := by
  have hw : waitForA node
      (GetResult.ok { Data := P, State := RemoteStateState.Passed } :: rest) =
      (some (SpecState.Passed, emptySpecFailure, { node with data := P }),
       [Event.get (node.syncHost ++ "/BeforeSuiteState")]) := by
    simp [waitForA]
  refine ⟨hw, rfl, fun b n => rfl, ?_⟩
  rw [Run]
  unfold phaseA
  rw [if_neg hne, hw]
  dsimp only
  rw [if_neg (by simp)]
  rfl

/-- Witness for C7: the concrete follower `wNodeF` adopting payload
`[1, 2, 3]`. -/
theorem payload_propagation_witness :
    (waitForA wNodeF
        [GetResult.ok { Data := [1, 2, 3], State := RemoteStateState.Passed }] =
       (some (SpecState.Passed, emptySpecFailure, { wNodeF with data := [1, 2, 3] }),
        [Event.get "http://127.0.0.1:8080/BeforeSuiteState"])) ∧
    wrapBArg { wNodeF with data := [1, 2, 3] } = [1, 2, 3] ∧
    (Run wNodeF wRunAPass true
        [GetResult.ok { Data := [1, 2, 3], State := RemoteStateState.Passed }]
        wRunBPass =
       some (true,
         { wNodeF with data := [1, 2, 3], outcome := SpecState.Passed,
                       failure := emptySpecFailure },
         [Event.get "http://127.0.0.1:8080/BeforeSuiteState",
          Event.ranRunnerB])) := by
  have h := payload_propagation wNodeF [1, 2, 3] [] wRunAPass true wRunBPass
    (by decide)
  exact ⟨h.1, h.2.1, h.2.2.2⟩

/-- C9: a decoded record whose state is neither `Passed`, `Failed` nor
`Disappeared` (`Pending` or the zero-valued `Invalid`) never terminates
the poll loop: the loop emits its GET and continues with the remaining
responses. -/
theorem nonterminal_state_keeps_polling
    (node : Node) (r : RemoteState) (rest : List GetResult)
    (h : r.State = RemoteStateState.Pending ∨ r.State = RemoteStateState.Invalid) :
    waitForA node (GetResult.ok r :: rest) =
      ((waitForA node rest).1,
       Event.get (node.syncHost ++ "/BeforeSuiteState") :: (waitForA node rest).2) := by
  rcases r with ⟨d, s⟩
  rcases h with h | h <;> (dsimp only at h; subst h; simp [waitForA])

/-- Witness for C9: `wNodeF` observing a `Pending` record keeps polling
(and with no further responses, never returns). -/
theorem nonterminal_state_keeps_polling_witness :
    waitForA wNodeF [GetResult.ok { Data := [], State := RemoteStateState.Pending }] =
      ((waitForA wNodeF []).1,
       Event.get "http://127.0.0.1:8080/BeforeSuiteState" :: (waitForA wNodeF []).2) :=
  nonterminal_state_keeps_polling wNodeF
    { Data := [], State := RemoteStateState.Pending } [] (Or.inl rfl)

/-- C10: whenever `Run` returns, its boolean equals what `Passed()`
reports on the final node state, `Passed()` is true exactly when the
recorded outcome is `Passed`, and a `true` return requires phase A to
have passed and runnerB to have passed as well. -/
theorem run_bool_matches_passed
    (node : Node) (rA : RunnerARun) (postOk : Bool) (responses : List GetResult)
    (rB : RunnerBRun) (b : Bool) (n' : Node) (evs : List Event)
    (h : Run node rA postOk responses rB = some (b, n', evs)) :
    b = NodePassed n' ∧
    (NodePassed n' = true ↔ n'.outcome = SpecState.Passed) ∧
    (b = true →
      ∃ o f nA evsA, phaseA node rA postOk responses = some (o, f, nA, evsA) ∧
        o = SpecState.Passed ∧ (rB nA.data).1 = SpecState.Passed ∧
        n'.outcome = (rB nA.data).1) := by
  cases hP : phaseA node rA postOk responses with
  | none => rw [Run, hP] at h; exact absurd h (by simp)
  | some t =>
    obtain ⟨o, f, nA, evsA⟩ := t
    rw [Run, hP] at h
    dsimp only at h
    by_cases ho : o = SpecState.Passed
    · rw [if_neg (by simp [ho])] at h
      injection h with h'
      simp only [Prod.mk.injEq] at h'
      obtain ⟨hb, hn, -⟩ := h'
      subst hn
      refine ⟨by rw [← hb]; simp [NodePassed], by simp [NodePassed], ?_⟩
      intro hbt
      refine ⟨o, f, nA, evsA, rfl, ho, ?_, rfl⟩
      rw [← hb] at hbt
      simpa using hbt
    · rw [if_pos ho] at h
      injection h with h'
      simp only [Prod.mk.injEq] at h'
      obtain ⟨hb, hn, -⟩ := h'
      subst hn
      refine ⟨by rw [← hb]; simp [NodePassed, ho], by simp [NodePassed], ?_⟩
      intro hbt
      rw [← hb] at hbt
      exact absurd hbt (by simp)

/-- Witness for C10: a failing producer run, where `Run` returns `false`
and `Passed()` is false. -/
theorem run_bool_matches_passed_witness :
    false = NodePassed { wNode with outcome := SpecState.Failed,
                                    failure := { Message := "boom" } } ∧
    (NodePassed { wNode with outcome := SpecState.Failed,
                             failure := { Message := "boom" } } = true ↔
      ({ wNode with outcome := SpecState.Failed,
                    failure := { Message := "boom" } } : Node).outcome =
        SpecState.Passed) ∧
    (false = true →
      ∃ o f nA evsA, phaseA wNode wRunAFail true [] = some (o, f, nA, evsA) ∧
        o = SpecState.Passed ∧ (wRunBPass nA.data).1 = SpecState.Passed ∧
        ({ wNode with outcome := SpecState.Failed,
                      failure := { Message := "boom" } } : Node).outcome =
          (wRunBPass nA.data).1) :=
  run_bool_matches_passed wNode wRunAFail true [] wRunBPass false
    { wNode with outcome := SpecState.Failed, failure := { Message := "boom" } }
    [Event.ranRunnerA,
     Event.post "http://127.0.0.1:8080/BeforeSuiteState" "application/json"
       { Data := [], State := RemoteStateState.Failed }]
    (by rfl)

/-- Kind inversion: only functions have kind `funcK`. -/
theorem GoType.kind_funcK {t : GoType} (h : t.kind = GoKind.funcK) :
    ∃ ins outs, t = GoType.func ins outs := by
  cases t <;> first
    | exact ⟨_, _, rfl⟩
    | simp [GoType.kind] at h

/-- Kind inversion: only channels have kind `chanK`. -/
theorem GoType.kind_chanK {t : GoType} (h : t.kind = GoKind.chanK) :
    ∃ e, t = GoType.chan e := by
  cases t <;> first
    | exact ⟨_, rfl⟩
    | simp [GoType.kind] at h

/-- Kind inversion: only slices have kind `sliceK`. -/
theorem GoType.kind_sliceK {t : GoType} (h : t.kind = GoKind.sliceK) :
    ∃ e, t = GoType.slice e := by
  cases t <;> first
    | exact ⟨_, rfl⟩
    | simp [GoType.kind] at h

/-- Kind inversion: only the empty interface has kind `interfaceK`. -/
theorem GoType.kind_interfaceK {t : GoType} (h : t.kind = GoKind.interfaceK) :
    t = GoType.interfaceT := by
  cases t <;> first
    | rfl
    | simp [GoType.kind] at h

/-- Kind inversion: only `uint8` has kind `uint8K`. -/
theorem GoType.kind_uint8K {t : GoType} (h : t.kind = GoKind.uint8K) :
    t = GoType.uint8 := by
  cases t <;> first
    | rfl
    | simp [GoType.kind] at h

/-- The argument-list facts `wrapA` checks pin the producer's reflected
shape down to the two accepted ones. -/
theorem shapeA_inversion (ins outs : List GoType)
    (h1 : ins.length = 0 ∨
      (ins.length = 1 ∧ (ins.getD 0 GoType.other).kind = GoKind.chanK ∧
       ((ins.getD 0 GoType.other).elem).kind = GoKind.interfaceK))
    (h2 : outs.length = 1 ∧ (outs.getD 0 GoType.other).kind = GoKind.sliceK ∧
      ((outs.getD 0 GoType.other).elem).kind = GoKind.uint8K) :
    (ins = [] ∨ ins = [GoType.chan GoType.interfaceT]) ∧
    outs = [GoType.slice GoType.uint8] := by
  obtain ⟨hl, hk, he⟩ := h2
  obtain ⟨o1, rfl⟩ := List.length_eq_one.mp hl
  simp only [List.getD_cons_zero] at hk he
  obtain ⟨e, rfl⟩ := GoType.kind_sliceK hk
  simp only [GoType.elem] at he
  have := GoType.kind_uint8K he
  subst this
  refine ⟨?_, rfl⟩
  rcases h1 with h1 | ⟨hl1, hk1, he1⟩
  · left; exact List.length_eq_zero.mp h1
  · right
    obtain ⟨i1, rfl⟩ := List.length_eq_one.mp hl1
    simp only [List.getD_cons_zero] at hk1 he1
    obtain ⟨e1, rfl⟩ := GoType.kind_chanK hk1
    simp only [GoType.elem] at he1
    have := GoType.kind_interfaceK he1
    subst this
    rfl

/-- The argument-list facts `wrapB` checks pin the consumer's reflected
shape down to the two accepted ones. -/
theorem shapeB_inversion (ins outs : List GoType)
    (h1 : (ins.length = 1 ∧ (ins.getD 0 GoType.other).kind = GoKind.sliceK ∧
       ((ins.getD 0 GoType.other).elem).kind = GoKind.uint8K) ∨
      (ins.length = 2 ∧
       (ins.getD 0 GoType.other).kind = GoKind.sliceK ∧
       ((ins.getD 0 GoType.other).elem).kind = GoKind.uint8K ∧
       (ins.getD 1 GoType.other).kind = GoKind.chanK ∧
       ((ins.getD 1 GoType.other).elem).kind = GoKind.interfaceK))
    (h2 : outs.length = 0) :
    (ins = [GoType.slice GoType.uint8] ∨
     ins = [GoType.slice GoType.uint8, GoType.chan GoType.interfaceT]) ∧
    outs = [] := by
  refine ⟨?_, List.length_eq_zero.mp h2⟩
  rcases h1 with ⟨hl, hk, he⟩ | ⟨hl, hk, he, hk2, he2⟩
  · left
    obtain ⟨i1, rfl⟩ := List.length_eq_one.mp hl
    simp only [List.getD_cons_zero] at hk he
    obtain ⟨e, rfl⟩ := GoType.kind_sliceK hk
    simp only [GoType.elem] at he
    have := GoType.kind_uint8K he
    subst this
    rfl
  · right
    obtain ⟨i1, i2, rfl⟩ := List.length_eq_two.mp hl
    simp only [List.getD_cons_zero, List.getD_cons_succ] at hk he hk2 he2
    obtain ⟨e, rfl⟩ := GoType.kind_sliceK hk
    simp only [GoType.elem] at he
    have h3 := GoType.kind_uint8K he
    subst h3
    obtain ⟨e2, rfl⟩ := GoType.kind_chanK hk2
    simp only [GoType.elem] at he2
    have h4 := GoType.kind_interfaceK he2
    subst h4
    rfl

/-- `wrapA` accepts exactly the spec's two producer shapes. -/
theorem wrapA_ok_iff (t : GoType) :
    wrapA t = Except.ok () ↔ specValidShapeA t = true := by
  constructor
  · intro h
    unfold wrapA at h
    by_cases hk : t.kind = GoKind.funcK
    · rw [if_neg (by simp [hk])] at h
      obtain ⟨ins, outs, rfl⟩ := GoType.kind_funcK hk
      by_cases hc : ((GoType.func ins outs).numIn = 0 ∨
          ((GoType.func ins outs).numIn = 1 ∧
           ((GoType.func ins outs).inAt 0).kind = GoKind.chanK ∧
           ((GoType.func ins outs).inAt 0).elem.kind = GoKind.interfaceK)) ∧
          ((GoType.func ins outs).numOut = 1 ∧
           ((GoType.func ins outs).outAt 0).kind = GoKind.sliceK ∧
           ((GoType.func ins outs).outAt 0).elem.kind = GoKind.uint8K)
      · obtain ⟨hins, rfl⟩ := shapeA_inversion ins outs hc.1 hc.2
        rcases hins with rfl | rfl <;> rfl
      · rw [if_pos hc] at h
        exact Except.noConfusion h
    · rw [if_pos hk] at h
      exact Except.noConfusion h
  · intro h
    rcases t with ⟨ins, outs⟩ | e | e | _ | _ | _ <;>
      simp only [specValidShapeA] at h <;>
      try exact Bool.noConfusion h
    match ins, outs, h with
    | [], [GoType.slice GoType.uint8], _ => rfl
    | [GoType.chan GoType.interfaceT], [GoType.slice GoType.uint8], _ => rfl

/-- `wrapB` accepts exactly the spec's two consumer shapes. -/
theorem wrapB_ok_iff (t : GoType) :
    wrapB t = Except.ok () ↔ specValidShapeB t = true := by
  constructor
  · intro h
    unfold wrapB at h
    by_cases hk : t.kind = GoKind.funcK
    · rw [if_neg (by simp [hk])] at h
      obtain ⟨ins, outs, rfl⟩ := GoType.kind_funcK hk
      by_cases hc : (((GoType.func ins outs).numIn = 1 ∧
            ((GoType.func ins outs).inAt 0).kind = GoKind.sliceK ∧
            ((GoType.func ins outs).inAt 0).elem.kind = GoKind.uint8K) ∨
          ((GoType.func ins outs).numIn = 2 ∧
            ((GoType.func ins outs).inAt 0).kind = GoKind.sliceK ∧
            ((GoType.func ins outs).inAt 0).elem.kind = GoKind.uint8K ∧
            ((GoType.func ins outs).inAt 1).kind = GoKind.chanK ∧
            ((GoType.func ins outs).inAt 1).elem.kind = GoKind.interfaceK)) ∧
          (GoType.func ins outs).numOut = 0
      · obtain ⟨hins, rfl⟩ := shapeB_inversion ins outs hc.1 hc.2
        rcases hins with rfl | rfl <;> rfl
      · rw [if_pos hc] at h
        exact Except.noConfusion h
    · rw [if_pos hk] at h
      exact Except.noConfusion h
  · intro h
    rcases t with ⟨ins, outs⟩ | e | e | _ | _ | _ <;>
      simp only [specValidShapeB] at h <;>
      try exact Bool.noConfusion h
    match ins, outs, h with
    | [GoType.slice GoType.uint8], [], _ => rfl
    | [GoType.slice GoType.uint8, GoType.chan GoType.interfaceT], [], _ => rfl

/-- An invalid producer shape makes `wrapA` panic with one of its two
messages, both naming the first argument. -/
theorem wrapA_error_of_invalid (t : GoType) (h : specValidShapeA t = false) :
    wrapA t =
      Except.error "CompoundBeforeSuite expects a function as its first argument" ∨
    wrapA t =
      Except.error "CompoundBeforeSuite's first argument should be a function that returns []byte and either takes no arguments or takes a Done channel." := by
  by_cases hk : t.kind = GoKind.funcK
  · right
    obtain ⟨ins, outs, rfl⟩ := GoType.kind_funcK hk
    unfold wrapA
    rw [if_neg (by simp [GoType.kind])]
    rw [if_pos ?hcond]
    case hcond =>
      intro hc
      obtain ⟨hins, houts⟩ := shapeA_inversion ins outs hc.1 hc.2
      subst houts
      rcases hins with rfl | rfl <;> simp [specValidShapeA] at h
  · left
    unfold wrapA
    rw [if_pos hk]

/-- An invalid consumer shape makes `wrapB` panic with one of its two
messages, both naming the second argument. -/
theorem wrapB_error_of_invalid (t : GoType) (h : specValidShapeB t = false) :
    wrapB t =
      Except.error "CompoundBeforeSuite expects a function as its second argument" ∨
    wrapB t =
      Except.error "CompoundBeforeSuite's second argument should be a function that returns nothing and either takes []byte or ([]byte, Done)" := by
  by_cases hk : t.kind = GoKind.funcK
  · right
    obtain ⟨ins, outs, rfl⟩ := GoType.kind_funcK hk
    unfold wrapB
    rw [if_neg (by simp [GoType.kind])]
    rw [if_pos ?hcond]
    case hcond =>
      intro hc
      obtain ⟨hins, houts⟩ := shapeB_inversion ins outs hc.1 hc.2
      subst houts
      rcases hins with rfl | rfl <;> simp [specValidShapeB] at h
  · left
    unfold wrapB
    rw [if_pos hk]

/-- C8: an invalid producer shape aborts construction with a message
naming the first argument (the producer check fires before the consumer
check); a valid producer with an invalid consumer aborts with a message
naming the second argument; two valid shapes construct the node without
error. -/
theorem constructor_validates_shapes
    (tA tB : GoType) (cl : CodeLocation) (gn tn : Nat) (host : String) :
    (specValidShapeA tA = false →
      NewCompoundBeforeSuiteNode tA tB cl gn tn host =
          Except.error "CompoundBeforeSuite expects a function as its first argument" ∨
      NewCompoundBeforeSuiteNode tA tB cl gn tn host =
          Except.error "CompoundBeforeSuite's first argument should be a function that returns []byte and either takes no arguments or takes a Done channel.") ∧
    (specValidShapeA tA = true → specValidShapeB tB = false →
      NewCompoundBeforeSuiteNode tA tB cl gn tn host =
          Except.error "CompoundBeforeSuite expects a function as its second argument" ∨
      NewCompoundBeforeSuiteNode tA tB cl gn tn host =
          Except.error "CompoundBeforeSuite's second argument should be a function that returns nothing and either takes []byte or ([]byte, Done)") ∧
    (specValidShapeA tA = true → specValidShapeB tB = true →
      NewCompoundBeforeSuiteNode tA tB cl gn tn host =
        Except.ok
          { ginkgoNode := gn, totalGinkgoNodes := tn, syncHost := host,
            data := [], outcome := SpecState.Invalid,
            failure := emptySpecFailure,
            runnerA := { codeLocation := cl,
                         nodeType := SpecComponentType.BeforeSuite,
                         componentIndex := 0 } }) := by
  refine ⟨?_, ?_, ?_⟩
  · intro h
    rcases wrapA_error_of_invalid tA h with he | he
    · left
      unfold NewCompoundBeforeSuiteNode
      rw [he]
      rfl
    · right
      unfold NewCompoundBeforeSuiteNode
      rw [he]
      rfl
  · intro hA hB
    have heA : wrapA tA = .ok () := (wrapA_ok_iff tA).mpr hA
    rcases wrapB_error_of_invalid tB hB with he | he
    · left
      unfold NewCompoundBeforeSuiteNode
      rw [heA, he]
      rfl
    · right
      unfold NewCompoundBeforeSuiteNode
      rw [heA, he]
      rfl
  · intro hA hB
    have heA : wrapA tA = .ok () := (wrapA_ok_iff tA).mpr hA
    have heB : wrapB tB = .ok () := (wrapB_ok_iff tB).mpr hB
    unfold NewCompoundBeforeSuiteNode
    rw [heA, heB]
    rfl

/-- Witness for C8: a non-function producer argument is rejected at
construction time with a first-argument message. -/
theorem constructor_validates_shapes_witness :
    specValidShapeA GoType.other = false ∧
    (NewCompoundBeforeSuiteNode GoType.other
        (GoType.func [GoType.slice GoType.uint8] []) ⟨"suite_test.go", 42⟩ 1 2
        "http://127.0.0.1:8080" =
          Except.error "CompoundBeforeSuite expects a function as its first argument" ∨
     NewCompoundBeforeSuiteNode GoType.other
        (GoType.func [GoType.slice GoType.uint8] []) ⟨"suite_test.go", 42⟩ 1 2
        "http://127.0.0.1:8080" =
          Except.error "CompoundBeforeSuite's first argument should be a function that returns []byte and either takes no arguments or takes a Done channel.") :=
  ⟨rfl,
   (constructor_validates_shapes GoType.other
     (GoType.func [GoType.slice GoType.uint8] []) ⟨"suite_test.go", 42⟩ 1 2
     "http://127.0.0.1:8080").1 rfl⟩

end Ginkgo
